import Mathlib

/-
Verification of the search-sentinel content-intelligence pipeline.

Shallow embedding conventions:
* JavaScript strings are modelled as `List Char` (`Str`), so character-level
  operations (trim, fence stripping, prefix tests) are fully concrete.
* External HTTP calls are modelled by their settled outcomes, passed in as
  explicit parameters (an inductive of the cases the code distinguishes).
* `JSON.parse` over model output is modelled by its outcome
  (`Option` of the expected shape), since the code only branches on
  success/failure of the parse.
-/

abbrev Str := List Char

def str (s : String) : Str := s.toList

namespace SearchSentinel

/-! ### JavaScript string primitives -/

/-- The backtick character (written via its code point, U+0060). -/
def btick : Char := Char.ofNat 96

def isWs (c : Char) : Bool := c.isWhitespace

/-- Model of JS `String.prototype.trimStart`. -/
def trimLeft (l : Str) : Str := l.dropWhile isWs

/-- Model of JS `String.prototype.trimEnd`. -/
def trimRight (l : Str) : Str := (l.reverse.dropWhile isWs).reverse

/-- Model of JS `String.prototype.trim`. -/
def jsTrim (l : Str) : Str := trimLeft (trimRight l)

/-- Drops a single leading newline if present (the `\n?` part of the
fence-removal regexes, matched greedily). -/
def dropOptNl (l : Str) : Str :=
  match l with
  | a :: t => if a = '\n' then t else a :: t
  | [] => []

theorem dropOptNl_length_le (l : Str) : (dropOptNl l).length ≤ l.length := by
  cases l with
  | nil => simp [dropOptNl]
  | cons a t =>
    by_cases ha : a = '\n' <;> simp [dropOptNl, ha]

/-- The three-backtick fence `\x60\x60\x60`. -/
def fence3 : Str := str "\x60\x60\x60"

/-- The opening JSON fence `\x60\x60\x60json`. -/
def fenceJson : Str := str "\x60\x60\x60json"

/-- The opening HTML fence `\x60\x60\x60html`. -/
def fenceHtml : Str := str "\x60\x60\x60html"

/-- Model of `.replace(/\x60\x60\x60json\n?/g, '')`: one left-to-right pass
removing every occurrence of the JSON fence and an optional following
newline, exactly as a global regex replace does. -/
def stripJsonFences (l : Str) : Str :=
  if h : fenceJson.isPrefixOf l then
    stripJsonFences (dropOptNl (l.drop 7))
  else
    match l with
    | [] => []
    | c :: rest => c :: stripJsonFences rest
termination_by l.length
decreasing_by
  · have hp : fenceJson <+: l := by
      simpa [List.isPrefixOf_iff_prefix] using h
    have h7 : 7 ≤ l.length := by
      simpa [fenceJson, str] using hp.length_le
    have hd : (dropOptNl (l.drop 7)).length ≤ (l.drop 7).length :=
      dropOptNl_length_le _
    have : (l.drop 7).length = l.length - 7 := by simp
    omega
  · simp

/-- Model of `.replace(/\x60\x60\x60html\n?/g, '')`. -/
def stripHtmlFences (l : Str) : Str :=
  if h : fenceHtml.isPrefixOf l then
    stripHtmlFences (dropOptNl (l.drop 7))
  else
    match l with
    | [] => []
    | c :: rest => c :: stripHtmlFences rest
termination_by l.length
decreasing_by
  · have hp : fenceHtml <+: l := by
      simpa [List.isPrefixOf_iff_prefix] using h
    have h7 : 7 ≤ l.length := by
      simpa [fenceHtml, str] using hp.length_le
    have hd : (dropOptNl (l.drop 7)).length ≤ (l.drop 7).length :=
      dropOptNl_length_le _
    have : (l.drop 7).length = l.length - 7 := by simp
    omega
  · simp

/-- Model of `.replace(/\x60\x60\x60\n?/g, '')`. -/
def stripTickFences (l : Str) : Str :=
  if h : fence3.isPrefixOf l then
    stripTickFences (dropOptNl (l.drop 3))
  else
    match l with
    | [] => []
    | c :: rest => c :: stripTickFences rest
termination_by l.length
decreasing_by
  · have hp : fence3 <+: l := by
      simpa [List.isPrefixOf_iff_prefix] using h
    have h3 : 3 ≤ l.length := by
      simpa [fence3, str] using hp.length_le
    have hd : (dropOptNl (l.drop 3)).length ≤ (l.drop 3).length :=
      dropOptNl_length_le _
    have : (l.drop 3).length = l.length - 3 := by simp
    omega
  · simp

/-- The Response Normalizer's fence-stripping step as written in
seo-generate-query:
`text.replace(/\x60\x60\x60json\n?/g, '').replace(/\x60\x60\x60\n?/g, '').trim()`. -/
def stripFences (l : Str) : Str := jsTrim (stripTickFences (stripJsonFences l))

/-- The fence-stripping step as written in seo-analyze, which additionally
trims before removing fences:
`text.trim().replace(/\x60\x60\x60json\n?/g, '').replace(/\x60\x60\x60\n?/g, '').trim()`. -/
def analyzeStripFences (l : Str) : Str := stripFences (jsTrim l)

/-! ### Unfolding and scanning lemmas for the fence strippers -/

theorem isPrefixOf_cons_false_of_ne {a : Char} {ps : Str} {c : Char} {rest : Str}
    (h : ¬ c = a) : (a :: ps).isPrefixOf (c :: rest) = false := by
  simp [List.isPrefixOf]
  intro hac
  exact absurd hac.symm h

theorem stripJsonFences_nil : stripJsonFences [] = [] := by
  rw [stripJsonFences]
  simp [fenceJson, str, List.isPrefixOf]

theorem stripJsonFences_pos {l : Str} (h : fenceJson.isPrefixOf l) :
    stripJsonFences l = stripJsonFences (dropOptNl (l.drop 7)) := by
  rw [stripJsonFences]
  simp [h]

theorem stripJsonFences_neg_cons {c : Char} {rest : Str}
    (h : ¬ fenceJson.isPrefixOf (c :: rest)) :
    stripJsonFences (c :: rest) = c :: stripJsonFences rest := by
  rw [stripJsonFences]
  simp [h]

theorem fenceJson_eq_cons :
    fenceJson = btick :: btick :: btick :: 'j' :: 's' :: 'o' :: 'n' :: [] := by
  decide

theorem fence3_eq_cons : fence3 = btick :: btick :: btick :: [] := by
  decide

theorem stripTickFences_nil : stripTickFences [] = [] := by
  rw [stripTickFences]
  simp [fence3, str, List.isPrefixOf]

theorem stripTickFences_pos {l : Str} (h : fence3.isPrefixOf l) :
    stripTickFences l = stripTickFences (dropOptNl (l.drop 3)) := by
  rw [stripTickFences]
  simp [h]

theorem stripTickFences_neg_cons {c : Char} {rest : Str}
    (h : ¬ fence3.isPrefixOf (c :: rest)) :
    stripTickFences (c :: rest) = c :: stripTickFences rest := by
  rw [stripTickFences]
  simp [h]

/-- A string without backticks passes through the JSON-fence remover
unchanged (no fence can start at any of its positions). -/
theorem stripJsonFences_of_no_btick {l : Str} (h : btick ∉ l) :
    stripJsonFences l = l := by
  induction l with
  | nil => exact stripJsonFences_nil
  | cons c rest ih =>
    have hc : ¬ c = btick := fun e => h (e ▸ List.mem_cons_self c rest)
    have hnp : ¬ fenceJson.isPrefixOf (c :: rest) := by
      rw [fenceJson_eq_cons]
      simp [isPrefixOf_cons_false_of_ne hc]
    rw [stripJsonFences_neg_cons hnp, ih (fun m => h (List.mem_cons_of_mem c m))]

theorem stripTickFences_of_no_btick {l : Str} (h : btick ∉ l) :
    stripTickFences l = l := by
  induction l with
  | nil => exact stripTickFences_nil
  | cons c rest ih =>
    have hc : ¬ c = btick := fun e => h (e ▸ List.mem_cons_self c rest)
    have hnp : ¬ fence3.isPrefixOf (c :: rest) := by
      rw [fence3_eq_cons]
      simp [isPrefixOf_cons_false_of_ne hc]
    rw [stripTickFences_neg_cons hnp, ih (fun m => h (List.mem_cons_of_mem c m))]

/-- Scanning skips over a backtick-free segment. -/
theorem stripJsonFences_append_of_no_btick {j : Str} (h : btick ∉ j) (t : Str) :
    stripJsonFences (j ++ t) = j ++ stripJsonFences t := by
  induction j with
  | nil => simp
  | cons c rest ih =>
    have hc : ¬ c = btick := fun e => h (e ▸ List.mem_cons_self c rest)
    have hnp : ¬ fenceJson.isPrefixOf (c :: (rest ++ t)) := by
      rw [fenceJson_eq_cons]
      simp [isPrefixOf_cons_false_of_ne hc]
    rw [List.cons_append, stripJsonFences_neg_cons hnp,
      ih (fun m => h (List.mem_cons_of_mem c m))]
    simp

theorem stripTickFences_append_of_no_btick {j : Str} (h : btick ∉ j) (t : Str) :
    stripTickFences (j ++ t) = j ++ stripTickFences t := by
  induction j with
  | nil => simp
  | cons c rest ih =>
    have hc : ¬ c = btick := fun e => h (e ▸ List.mem_cons_self c rest)
    have hnp : ¬ fence3.isPrefixOf (c :: (rest ++ t)) := by
      rw [fence3_eq_cons]
      simp [isPrefixOf_cons_false_of_ne hc]
    rw [List.cons_append, stripTickFences_neg_cons hnp,
      ih (fun m => h (List.mem_cons_of_mem c m))]
    simp

/-! ### Trim lemmas -/

theorem trimRight_eq_rdropWhile (l : Str) : trimRight l = List.rdropWhile isWs l := rfl

theorem trimLeft_idem (l : Str) : trimLeft (trimLeft l) = trimLeft l :=
  List.dropWhile_idempotent isWs l

theorem trimRight_idem (l : Str) : trimRight (trimRight l) = trimRight l := by
  rw [trimRight_eq_rdropWhile, trimRight_eq_rdropWhile]
  exact List.rdropWhile_idempotent isWs l

/-- Appending a trailing newline does not change the trimmed value. -/
theorem trimRight_append_nl (l : Str) : trimRight (l ++ ['\n']) = trimRight l := by
  rw [trimRight_eq_rdropWhile, trimRight_eq_rdropWhile]
  exact List.rdropWhile_concat_pos isWs l '\n' (by decide)

theorem jsTrim_append_nl (l : Str) : jsTrim (l ++ ['\n']) = jsTrim l := by
  rw [jsTrim, jsTrim, trimRight_append_nl]

/-- If the last character is not whitespace, right-trimming is the identity. -/
theorem trimRight_concat_not_ws {c : Char} (l : Str) (h : isWs c = false) :
    trimRight (l ++ [c]) = l ++ [c] := by
  rw [trimRight_eq_rdropWhile]
  exact List.rdropWhile_concat_neg isWs l c (by simp [h])

/-- If the first character is not whitespace, left-trimming is the identity. -/
theorem trimLeft_cons_not_ws {c : Char} (l : Str) (h : isWs c = false) :
    trimLeft (c :: l) = c :: l := by
  simp [trimLeft, List.dropWhile_cons, h]

/-- Trimming does not introduce characters. -/
theorem mem_of_mem_jsTrim {c : Char} {l : Str} (h : c ∈ jsTrim l) : c ∈ l := by
  have h1 : c ∈ trimRight l := (List.dropWhile_sublist isWs).subset h
  have h2 : c ∈ l.reverse.dropWhile isWs := by
    have := List.mem_reverse.mpr h1
    simpa [trimRight] using this
  have h3 : c ∈ l.reverse := (List.dropWhile_sublist isWs).subset h2
  simpa using h3

/-- The last element of a right-trimmed string is not whitespace. -/
theorem getLast?_trimRight_not_ws (l : Str) :
    ∀ x ∈ (trimRight l).getLast?, isWs x = false := by
  intro x hx
  have hne : trimRight l ≠ [] := by
    intro h0
    rw [h0] at hx
    simp at hx
  have h1 := List.rdropWhile_last_not isWs l
    (by rw [← trimRight_eq_rdropWhile]; exact hne)
  have h2 : (trimRight l).getLast? = some ((trimRight l).getLast hne) :=
    List.getLast?_eq_getLast _ hne
  rw [h2] at hx
  have hx2 : (trimRight l).getLast hne = x := by simpa using hx
  subst hx2
  simpa using h1

/-- Left-trimming a right-trimmed string does not re-expose trailing
whitespace. -/
theorem trimRight_trimLeft_trimRight (l : Str) :
    trimRight (trimLeft (trimRight l)) = trimLeft (trimRight l) := by
  by_cases hne : trimLeft (trimRight l) = []
  · rw [hne]
    rfl
  · rw [trimRight_eq_rdropWhile, List.rdropWhile_eq_self_iff]
    intro hl
    have hsuf : trimLeft (trimRight l) <:+ trimRight l := List.dropWhile_suffix isWs
    obtain ⟨w, hw⟩ := hsuf
    have hlast : (trimRight l).getLast? = (trimLeft (trimRight l)).getLast? := by
      conv_lhs => rw [← hw]
      exact List.getLast?_append_of_ne_nil w hne
    have hx : (trimLeft (trimRight l)).getLast? =
        some ((trimLeft (trimRight l)).getLast hl) :=
      List.getLast?_eq_getLast _ hl
    have hnw := getLast?_trimRight_not_ws l ((trimLeft (trimRight l)).getLast hl)
      (by rw [hlast, hx]; rfl)
    simp [hnw]

theorem jsTrim_idem (l : Str) : jsTrim (jsTrim l) = jsTrim l := by
  rw [jsTrim, jsTrim, trimRight_trimLeft_trimRight, trimLeft_idem]

/-! ### Round-trip behaviour of fence stripping (spec section 8, C9) -/

/-- A JSON payload wrapped in a Markdown code fence:
`\x60\x60\x60json\n<payload>\n\x60\x60\x60`. -/
def fencedWrap (j : Str) : Str := fenceJson ++ '\n' :: (j ++ '\n' :: fence3)

theorem isPrefixOf_append_self (l t : Str) : l.isPrefixOf (l ++ t) := by
  simp [List.isPrefixOf_iff_prefix]

theorem stripJsonFences_fence3 : stripJsonFences fence3 = fence3 := by
  rw [fence3_eq_cons, stripJsonFences_neg_cons (by decide),
    stripJsonFences_neg_cons (by decide), stripJsonFences_neg_cons (by decide),
    stripJsonFences_nil]

theorem stripJsonFences_fencedWrap {j : Str} (h : btick ∉ j) :
    stripJsonFences (fencedWrap j) = j ++ '\n' :: fence3 := by
  rw [fencedWrap, stripJsonFences_pos (isPrefixOf_append_self _ _),
    List.drop_left' (by decide : fenceJson.length = 7)]
  have hnl : dropOptNl ('\n' :: (j ++ '\n' :: fence3)) = j ++ '\n' :: fence3 := by
    simp [dropOptNl]
  rw [hnl, stripJsonFences_append_of_no_btick h,
    stripJsonFences_neg_cons (by decide), stripJsonFences_fence3]

theorem stripTickFences_tail : stripTickFences ('\n' :: fence3) = ['\n'] := by
  rw [stripTickFences_neg_cons (by decide),
    stripTickFences_pos (by rw [fence3_eq_cons]; decide)]
  have : (fence3.drop 3) = [] := by decide
  have h2 : fence3.drop 3 = ([] : Str) := by decide
  rw [h2]
  simp [dropOptNl, stripTickFences_nil]

/-- Stripping the fenced wrapper recovers the trimmed payload. -/
theorem stripFences_fencedWrap {j : Str} (h : btick ∉ j) :
    stripFences (fencedWrap j) = jsTrim j := by
  rw [stripFences, stripJsonFences_fencedWrap h,
    stripTickFences_append_of_no_btick h, stripTickFences_tail, jsTrim_append_nl]

/-- Stripping a backtick-free payload only trims it. -/
theorem stripFences_of_no_btick {j : Str} (h : btick ∉ j) :
    stripFences j = jsTrim j := by
  rw [stripFences, stripJsonFences_of_no_btick h, stripTickFences_of_no_btick h]

theorem no_btick_jsTrim {j : Str} (h : btick ∉ j) : btick ∉ jsTrim j :=
  fun m => h (mem_of_mem_jsTrim m)

theorem jsTrim_fencedWrap (j : Str) : jsTrim (fencedWrap j) = fencedWrap j := by
  have hconcat : fencedWrap j =
      (fenceJson ++ '\n' :: (j ++ '\n' :: [btick, btick])) ++ [btick] := by
    rw [fencedWrap, fence3_eq_cons]
    simp
  have hcons : fencedWrap j =
      btick :: (str "\x60\x60json" ++ '\n' :: (j ++ '\n' :: fence3)) := by
    rw [fencedWrap, fenceJson_eq_cons, fence3_eq_cons]
    simp [str]
    decide
  rw [jsTrim]
  rw [hconcat, trimRight_concat_not_ws _ (by decide), ← hconcat, hcons,
    trimLeft_cons_not_ws _ (by decide), ← hcons]

/-! ### Rate/Quota Gate (supabase/functions/_shared/flowglad.ts) -/

structure UsageBalance where
  availableBalance : Int
  usedBalance : Int
  totalBalance : Int
  deriving DecidableEq, Repr

structure FlowgladError where
  code : Str
  message : Str
  deriving DecidableEq, Repr

/-- The billing object built by `getFlowgladBilling` (only the two accessors
the gate consults; the raw `features`/`usageMeters` mirrors are not read by
`checkApiRateLimit`). -/
structure FlowgladBilling where
  checkFeatureAccess : Str → Bool
  checkUsageBalance : Str → Option UsageBalance

/-- Settled outcome of the environment lookup and billing fetch inside
`getFlowgladBilling`: secret key absent, customer 404, non-ok response,
network exception, or parsed response data. -/
inductive FlowgladEnv where
  | noApiKey
  | notFound
  | httpError
  | networkError
  | ok (features : Str → Bool) (meters : Str → Option UsageBalance)

/-- Model of `getFlowgladBilling`: fails open with a 999 allowance when the
key is unconfigured, grants a 10-unit starter allowance on 404, and reports
a typed error on HTTP/network failure. -/
def getFlowgladBilling : FlowgladEnv → Option FlowgladBilling × Option FlowgladError
  | .noApiKey =>
    (some ⟨fun _ => true, fun _ => some ⟨999, 0, 999⟩⟩, none)
  | .notFound =>
    (some ⟨fun _ => true, fun _ => some ⟨10, 0, 10⟩⟩, none)
  | .httpError =>
    (none, some ⟨str "API_ERROR", str "Failed to check billing status"⟩)
  | .networkError =>
    (none, some ⟨str "NETWORK_ERROR", str "Failed to connect to billing service"⟩)
  | .ok features meters => (some ⟨features, meters⟩, none)

def DEMO_USER_ID : Str := str "demo-user-12345"

def isDemoUser (userId : Str) : Bool := userId = DEMO_USER_ID

structure RateLimitResult where
  allowed : Bool
  remaining : Int
  error : Option FlowgladError
  isDemo : Bool
  deriving DecidableEq, Repr

/-- Model of `checkApiRateLimit`.  Note that it is a pure function of its
arguments: the source keeps no counter or other state between calls. -/
def checkApiRateLimit (env : FlowgladEnv) (customerExternalId : Str)
    (usageMeterSlug : Str) : RateLimitResult :=
  if isDemoUser customerExternalId then
    ⟨true, 3, none, true⟩
  else
    match getFlowgladBilling env with
    | (_, some e) => ⟨true, -1, some e, false⟩
    | (none, none) => ⟨true, -1, none, false⟩
    | (some billing, none) =>
      match billing.checkUsageBalance usageMeterSlug with
      | none => ⟨true, -1, none, false⟩
      | some usage =>
        let allowed : Bool := usage.availableBalance > 0
        ⟨allowed, usage.availableBalance,
          if allowed then none
          else some ⟨str "RATE_LIMIT_EXCEEDED",
            str "API rate limit exceeded. Please upgrade your plan."⟩,
          false⟩

/-- A series of `n` consecutive gate calls by the same identity against the
same meter.  Since the gate holds no state between calls, the series is just
the same pure evaluation `n` times. -/
def gateCallSeries (env : FlowgladEnv) (userId slug : Str) (n : Nat) :
    List RateLimitResult :=
  (List.range n).map fun _ => checkApiRateLimit env userId slug

/-! ### seo-analyze response construction (supabase/functions/seo-analyze) -/

structure AnalysisData where
  companyDescription : Str
  targetAudience : Str
  queries : List Str
  deriving DecidableEq, Repr

/-- An HTTP-style operation response: success flag, status code, optional
payload, optional error text. -/
structure ApiResponse (α : Type) where
  success : Bool
  status : Nat
  data : Option α
  error : Option Str

/-- The tail of the seo-analyze handler after the model call succeeded:
strip fences, attempt `JSON.parse` (modelled by its outcome), and either
return the parsed analysis as a success or surface a 500 parse failure.
There is no fallback synthesis in this handler. -/
def analyzeRespond (parsed : Option AnalysisData) : ApiResponse AnalysisData :=
  match parsed with
  | some analysis => ⟨true, 200, some analysis, none⟩
  | none => ⟨false, 500, none, some (str "Failed to parse AI response")⟩

def analyzeHandleModelOutput (messageContent : Str)
    (jsonParse : Str → Option AnalysisData) : ApiResponse AnalysisData :=
  analyzeRespond (jsonParse (analyzeStripFences messageContent))

/-! ### seo-generate-query normalization (migration-embedded function source) -/

structure Guideline where
  title : Str
  currentGaps : List Str
  competitorStrengths : List Str
  recommendedApproach : Str
  keyDifferentiators : List Str
  targetWordCount : Int
  primaryKeywords : List Str
  secondaryKeywords : List Str
  deriving DecidableEq, Repr

structure ContentPayload where
  html : Str
  metaTitle : Str
  metaDescription : Str
  summary : Str
  deriving DecidableEq, Repr

structure QueryContentResult where
  query : Str
  guideline : Guideline
  content : ContentPayload
  deriving DecidableEq, Repr

/-- The synthetic guideline substituted when the guideline-step JSON parse
fails (seo-generate-query, catch branch of the first parse). -/
def fallbackGuideline (query : Str) : Guideline where
  title := str "Content Strategy for \"" ++ query ++ str "\""
  currentGaps := [str "Content depth needs improvement",
    str "Missing key topics covered by competitors"]
  competitorStrengths := [str "Comprehensive coverage",
    str "Strong keyword optimization"]
  recommendedApproach :=
    str "Create authoritative, in-depth content that addresses user intent comprehensively."
  keyDifferentiators := [str "Unique industry expertise",
    str "Practical actionable advice"]
  targetWordCount := 1500
  primaryKeywords := [query]
  secondaryKeywords := []

def normalizeGuideline (parsed : Option Guideline) (query : Str) : Guideline :=
  match parsed with
  | some g => g
  | none => fallbackGuideline query

/-- Case-insensitive prefix test (the `i` flag of the doctype regex). -/
def ciPrefixOf : Str → Str → Bool
  | [], _ => true
  | _ :: _, [] => false
  | p :: ps, c :: cs => (p.toLower = c.toLower) && ciPrefixOf ps cs

def doctypePat : Str := str "<!DOCTYPE html>"

/-- Model of the doctype regex match (`<!DOCTYPE html>` followed by
anything, case-insensitive): the suffix
starting at the first case-insensitive occurrence of `<!DOCTYPE html>`,
if any. -/
def findDoctype : Str → Option Str
  | [] => none
  | c :: rest =>
    if ciPrefixOf doctypePat (c :: rest) then some (c :: rest)
    else findDoctype rest

/-- The synthetic content substituted when the content-step JSON parse fails
(seo-generate-query, catch branch of the second parse): a doctype-anchored
fragment of the raw text if one exists, else the raw text itself. -/
def fallbackContent (contentText query companyUrl : Str) : ContentPayload where
  html := (findDoctype contentText).getD contentText
  metaTitle := query ++ str " | " ++ companyUrl
  metaDescription := str "Expert guide on " ++ query ++ str " from " ++ companyUrl
  summary :=
    str "Comprehensive content created to fill competitive gaps and provide unique value."

def normalizeContent (parsed : Option ContentPayload)
    (contentText query companyUrl : Str) : ContentPayload :=
  match parsed with
  | some c => c
  | none => fallbackContent contentText query companyUrl

/-- The post-parse HTML cleanup (`if (content.html) { ... }`): remove HTML
code fences and trim; an empty html string is falsy and left alone. -/
def cleanHtmlField (c : ContentPayload) : ContentPayload :=
  if c.html.isEmpty then c
  else { c with html := jsTrim (stripTickFences (stripHtmlFences c.html)) }

/-- The seo-generate-query handler after both model calls succeeded: strip
fences from each raw output, attempt each parse, substitute the deterministic
fallbacks on failure, clean the html, and assemble the (always well-typed)
result record. -/
def generateQueryContentCore (query companyUrl : Str)
    (guidelineRaw : Str) (guidelineParse : Str → Option Guideline)
    (contentRaw : Str) (contentParse : Str → Option ContentPayload) :
    QueryContentResult :=
  let guidelineText := stripFences guidelineRaw
  let guideline := normalizeGuideline (guidelineParse guidelineText) query
  let contentText := stripFences contentRaw
  let content := normalizeContent (contentParse contentText) contentText query companyUrl
  ⟨query, guideline, cleanHtmlField content⟩

/-! ### Pipeline orchestrator loops (Analyzer `handleAnalyze`, steps 4 and 5) -/

structure Competitor where
  url : Str
  title : Str
  position : Int
  insights : List Str
  deriving DecidableEq, Repr

structure SearchResultR where
  query : Str
  analysis : Str
  competitors : List Competitor
  deriving DecidableEq, Repr

/-- Step 4, the competitor-analysis loop: iterate the first 5 queries
strictly in order; push the search result on success, append nothing on
failure, and continue.  `search` is the settled outcome of
`seoApi.searchQuery` (`none` models `success:false` or missing data). -/
def competitorLoop (queries : List Str) (search : Str → Option SearchResultR) :
    List SearchResultR :=
  (queries.take 5).foldl
    (fun allSearchResults q =>
      match search q with
      | some r => allSearchResults ++ [r]
      | none => allSearchResults)
    []

/-- Step 5, the content-generation loop: iterate exactly the collected
search results in order, invoking `generateQueryContent` once per entry
(with that entry's query); push on success.  The second component records
the queries passed to `generateQueryContent`, in invocation order. -/
def contentLoop (allSearchResults : List SearchResultR)
    (gen : SearchResultR → Option QueryContentResult) :
    List QueryContentResult × List Str :=
  allSearchResults.foldl
    (fun acc r =>
      match gen r with
      | some c => (acc.1 ++ [c], acc.2 ++ [r.query])
      | none => (acc.1, acc.2 ++ [r.query]))
    ([], [])

/-! ### seo-llm-compare (multi-model comparison) -/

structure LLMResult where
  provider : Str
  providerName : Str
  available : Bool
  response : Option Str
  keyTopics : Option (List Str)
  error : Option Str
  deriving DecidableEq, Repr

/-- Settled outcome of one provider HTTP call: non-ok response, ok response
(with the extracted message content), or a thrown exception. -/
inductive CallOutcome where
  | httpError (status : Nat) (errorText : Str)
  | ok (content : Str)
  | exn (message : Str)

/-- Model of `queryOpenAI`; `ekt` abstracts `extractKeyTopics` (not consulted
by any ordering property). -/
def queryOpenAI (ekt : Str → List Str) (o : CallOutcome) : LLMResult :=
  match o with
  | .httpError status errorText =>
    ⟨str "openai", str "ChatGPT", false, none, none,
      some (str "API error: " ++ str (toString status) ++ str " - " ++ errorText)⟩
  | .ok content =>
    ⟨str "openai", str "ChatGPT", true, some content, some (ekt content), none⟩
  | .exn message =>
    ⟨str "openai", str "ChatGPT", false, none, none, some message⟩

def queryGemini (ekt : Str → List Str) (o : CallOutcome) : LLMResult :=
  match o with
  | .httpError status errorText =>
    ⟨str "google", str "Gemini", false, none, none,
      some (str "API error: " ++ str (toString status) ++ str " - " ++ errorText)⟩
  | .ok content =>
    ⟨str "google", str "Gemini", true, some content, some (ekt content), none⟩
  | .exn message =>
    ⟨str "google", str "Gemini", false, none, none, some message⟩

def queryPerplexity (ekt : Str → List Str) (o : CallOutcome) : LLMResult :=
  match o with
  | .httpError status errorText =>
    ⟨str "perplexity", str "Perplexity", false, none, none,
      some (str "API error: " ++ str (toString status) ++ str " - " ++ errorText)⟩
  | .ok content =>
    ⟨str "perplexity", str "Perplexity", true, some content, some (ekt content), none⟩
  | .exn message =>
    ⟨str "perplexity", str "Perplexity", false, none, none, some message⟩

def unconfiguredResult (provider providerName : Str) : LLMResult :=
  ⟨provider, providerName, false, none, none, some (str "API key not configured")⟩

def xaiPlaceholder : LLMResult :=
  ⟨str "xai", str "Grok", false, none, none,
    some (str "Currently disabled - API key unavailable")⟩

def providerOrder : List Str :=
  [str "openai", str "google", str "perplexity", str "xai"]

/-- Model of JS `Array.prototype.indexOf`. -/
def jsIndexOf (l : List Str) (x : Str) : Int :=
  match l with
  | [] => -1
  | a :: rest =>
    if a = x then 0
    else
      let i := jsIndexOf rest x
      if i < 0 then -1 else i + 1

def sortKey (r : LLMResult) : Int := jsIndexOf providerOrder r.provider

/-- Stable insertion used to model `results.sort((a, b) => key a - key b)`
(JS `Array.prototype.sort` is stable; on ties the earlier element stays
first). -/
def insertByKey (x : LLMResult) : List LLMResult → List LLMResult
  | [] => [x]
  | y :: rest => if sortKey y ≤ sortKey x then y :: insertByKey x rest
    else x :: y :: rest

def sortResults (l : List LLMResult) : List LLMResult :=
  l.foldr insertByKey []

/-- The seo-llm-compare handler after reading the three provider keys
(`true` = configured): push an unavailable placeholder for each missing key
(in source order openai, google, perplexity), always push the disabled xai
placeholder, then append the settled results of the concurrently fired
calls (`Promise.all` preserves creation order: openai, google, perplexity),
and finally sort by the fixed provider order. -/
def compareAcrossModels (ekt : Str → List Str) (openaiKey googleKey perplexityKey : Bool)
    (oOpenai oGoogle oPerplexity : CallOutcome) : List LLMResult :=
  let preResults :=
    (if openaiKey then [] else [unconfiguredResult (str "openai") (str "ChatGPT")]) ++
    (if googleKey then [] else [unconfiguredResult (str "google") (str "Gemini")]) ++
    (if perplexityKey then [] else [unconfiguredResult (str "perplexity") (str "Perplexity")]) ++
    [xaiPlaceholder]
  let parallelResults :=
    (if openaiKey then [queryOpenAI ekt oOpenai] else []) ++
    (if googleKey then [queryGemini ekt oGoogle] else []) ++
    (if perplexityKey then [queryPerplexity ekt oPerplexity] else [])
  sortResults (preResults ++ parallelResults)

/-! ### seo-scrape handler -/

/-- Settled outcome of one firecrawl page-scrape call: a failed/failing
fetch (non-ok, exception, or no markdown field), or an extracted markdown
text (which may be empty; the handler's truthiness test then skips it). -/
inductive FetchOutcome where
  | fail
  | markdown (text : Str)

/-- Settled outcome of the firecrawl map call: non-ok response (with its
status and optional error text), or an ok response whose `links` field is
absent (`none`) or a list of discovered URLs. -/
inductive MapOutcome where
  | httpFail (status : Nat) (errMsg : Option Str)
  | ok (links : Option (List Str))

structure ScrapeData where
  url : Str
  pages : List Str
  content : Str
  pageCount : Nat
  deriving DecidableEq, Repr

def httpScheme : Str := str "http://"

def httpsScheme : Str := str "https://"

/-- Model of the URL formatting in seo-scrape: trim, then prepend
`https://` when no `http://` or `https://` scheme is present.  No other
normalization (in particular no trailing-slash handling) is performed. -/
def formatUrl (url : Str) : Str :=
  let formattedUrl := jsTrim url
  if httpScheme.isPrefixOf formattedUrl || httpsScheme.isPrefixOf formattedUrl then
    formattedUrl
  else httpsScheme ++ formattedUrl

def pageEntry (pageUrl md : Str) : Str :=
  str "--- Page: " ++ pageUrl ++ str " ---\n" ++ md

/-- The page-scrape loop over `urls.slice(0, 5)`: push the delimited page
text when the fetch succeeded with a truthy (non-empty) markdown string. -/
def scrapeLoop (urls : List Str) (fetch : Str → FetchOutcome) : List Str :=
  (urls.take 5).foldl
    (fun scrapedContent pageUrl =>
      match fetch pageUrl with
      | .markdown md =>
        if md.isEmpty then scrapedContent
        else scrapedContent ++ [pageEntry pageUrl md]
      | .fail => scrapedContent)
    []

def joinPages (l : List Str) : Str := List.intercalate (str "\n\n") l

/-- The seo-scrape handler from the point where the firecrawl key is
checked: map the site, derive the page list
(`mapData.links?.slice(0, 10) || [formattedUrl]` - an empty links array is
truthy in JS and is kept), scrape up to 5 pages, and build the response. -/
def scrapeAfterGate (url : Str) (firecrawlKey : Bool) (mapOut : MapOutcome)
    (fetch : Str → FetchOutcome) : ApiResponse ScrapeData :=
  if !firecrawlKey then
    ⟨false, 500, none, some (str "Firecrawl not configured")⟩
  else
    let formattedUrl := formatUrl url
    match mapOut with
    | .httpFail status errMsg =>
      ⟨false, status, none, some (errMsg.getD (str "Failed to map website"))⟩
    | .ok links? =>
      let urls := match links? with
        | some ls => ls.take 10
        | none => [formattedUrl]
      let scrapedContent := scrapeLoop urls fetch
      ⟨true, 200,
        some ⟨formattedUrl, urls, joinPages scrapedContent, scrapedContent.length⟩,
        none⟩

/-- The full seo-scrape handler: validate the url field, run the quota gate
for authenticated callers (429 on denial, surfacing the gate's reason), then
proceed to the scrape. -/
def seoScrape (urlField : Option Str) (userId : Option Str) (env : FlowgladEnv)
    (firecrawlKey : Bool) (mapOut : MapOutcome) (fetch : Str → FetchOutcome) :
    ApiResponse ScrapeData :=
  match urlField with
  | none => ⟨false, 400, none, some (str "URL is required")⟩
  | some url =>
    match userId with
    | some uid =>
      let gate := checkApiRateLimit env uid (str "scrape-requests")
      if gate.allowed then scrapeAfterGate url firecrawlKey mapOut fetch
      else
        ⟨false, 429, none,
          some (match gate.error with
            | some e => e.message
            | none => str "Rate limit exceeded. Please upgrade your plan.")⟩
    | none => scrapeAfterGate url firecrawlKey mapOut fetch

/-- Characterization helper for the scrape loop: the entry produced for one
page, if any. -/
def scrapeEntry (fetch : Str → FetchOutcome) (pageUrl : Str) : Option Str :=
  match fetch pageUrl with
  | .markdown md => if md.isEmpty then none else some (pageEntry pageUrl md)
  | .fail => none

/-! ### Helper lemmas -/

/-- The push-on-some step function shared by the loop characterizations. -/
def pushStep {α β : Type} (g : α → Option β) (acc : List β) (x : α) : List β :=
  match g x with
  | some b => acc ++ [b]
  | none => acc

theorem foldl_push_eq_filterMap {α β : Type} (g : α → Option β) :
    ∀ (l : List α) (acc : List β),
      l.foldl (pushStep g) acc = acc ++ l.filterMap g := by
  intro l
  induction l with
  | nil => intro acc; simp
  | cons x xs ih =>
    intro acc
    cases hx : g x with
    | none => simp [pushStep, hx, ih]
    | some b => simp [pushStep, hx, ih]

theorem scrapeLoop_eq_filterMap (urls : List Str) (fetch : Str → FetchOutcome) :
    scrapeLoop urls fetch = (urls.take 5).filterMap (scrapeEntry fetch) := by
  have hf : (fun (scrapedContent : List Str) pageUrl =>
      match fetch pageUrl with
      | FetchOutcome.markdown md =>
        if md.isEmpty then scrapedContent else scrapedContent ++ [pageEntry pageUrl md]
      | FetchOutcome.fail => scrapedContent)
      = pushStep (scrapeEntry fetch) := by
    funext acc x
    cases hx : fetch x with
    | fail => simp [pushStep, scrapeEntry, hx]
    | markdown md =>
      by_cases hmd : md.isEmpty <;> simp [pushStep, scrapeEntry, hx, hmd]
  rw [scrapeLoop, hf, foldl_push_eq_filterMap (scrapeEntry fetch)]
  simp

theorem scrapeEntry_isSome (fetch : Str → FetchOutcome) (u : Str) :
    (scrapeEntry fetch u).isSome
      = (match fetch u with
        | FetchOutcome.markdown md => !md.isEmpty
        | FetchOutcome.fail => false) := by
  cases hx : fetch u with
  | fail => simp [scrapeEntry, hx]
  | markdown md => by_cases hmd : md.isEmpty <;> simp [scrapeEntry, hx, hmd]

theorem length_filterMap_eq_length_filter {α β : Type} (g : α → Option β) :
    ∀ l : List α, (l.filterMap g).length = (l.filter fun x => (g x).isSome).length := by
  intro l
  induction l with
  | nil => rfl
  | cons x xs ih =>
    cases hx : g x <;> simp [List.filterMap_cons, List.filter_cons, hx, ih]

/-- The queries passed to `generateQueryContent` by the content loop are
exactly the collected search results' queries, in order, regardless of the
generation outcomes. -/
theorem contentLoop_calls (allSearchResults : List SearchResultR)
    (gen : SearchResultR → Option QueryContentResult) :
    (contentLoop allSearchResults gen).2 = allSearchResults.map SearchResultR.query := by
  suffices h : ∀ acc : List QueryContentResult × List Str,
      (allSearchResults.foldl
        (fun acc r =>
          match gen r with
          | some c => (acc.1 ++ [c], acc.2 ++ [r.query])
          | none => (acc.1, acc.2 ++ [r.query])) acc).2
        = acc.2 ++ allSearchResults.map SearchResultR.query by
    simpa [contentLoop] using h ([], [])
  induction allSearchResults with
  | nil => intro acc; simp
  | cons r rs ih =>
    intro acc
    cases hr : gen r <;> simp [hr, ih]

/-- The content loop's produced entries are exactly the successful
generations over the collected search results, in order. -/
theorem contentLoop_outputs (allSearchResults : List SearchResultR)
    (gen : SearchResultR → Option QueryContentResult) :
    (contentLoop allSearchResults gen).1 = allSearchResults.filterMap gen := by
  suffices h : ∀ acc : List QueryContentResult × List Str,
      (allSearchResults.foldl
        (fun acc r =>
          match gen r with
          | some c => (acc.1 ++ [c], acc.2 ++ [r.query])
          | none => (acc.1, acc.2 ++ [r.query])) acc).1
        = acc.1 ++ allSearchResults.filterMap gen by
    simpa [contentLoop] using h ([], [])
  induction allSearchResults with
  | nil => intro acc; simp
  | cons r rs ih =>
    intro acc
    cases hr : gen r <;> simp [hr, ih]

/-- A doctype match is a suffix of the scanned text and starts with the
doctype pattern (case-insensitively). -/
theorem findDoctype_spec : ∀ {l s : Str}, findDoctype l = some s →
    s <:+ l ∧ ciPrefixOf doctypePat s = true := by
  intro l
  induction l with
  | nil => intro s h; simp [findDoctype] at h
  | cons c rest ih =>
    intro s h
    rw [findDoctype] at h
    by_cases hm : ciPrefixOf doctypePat (c :: rest)
    · rw [if_pos hm] at h
      obtain rfl : c :: rest = s := by simpa using h
      exact ⟨List.suffix_refl _, hm⟩
    · rw [if_neg hm] at h
      obtain ⟨hs, hp⟩ := ih h
      exact ⟨hs.trans (List.suffix_cons c rest), hp⟩

theorem queryOpenAI_provider (ekt : Str → List Str) (o : CallOutcome) :
    (queryOpenAI ekt o).provider = str "openai" := by
  cases o <;> rfl

theorem queryGemini_provider (ekt : Str → List Str) (o : CallOutcome) :
    (queryGemini ekt o).provider = str "google" := by
  cases o <;> rfl

theorem queryPerplexity_provider (ekt : Str → List Str) (o : CallOutcome) :
    (queryPerplexity ekt o).provider = str "perplexity" := by
  cases o <;> rfl

theorem sortKey_queryOpenAI (ekt : Str → List Str) (o : CallOutcome) :
    sortKey (queryOpenAI ekt o) = 0 := by
  rw [sortKey, queryOpenAI_provider]
  decide

theorem sortKey_queryGemini (ekt : Str → List Str) (o : CallOutcome) :
    sortKey (queryGemini ekt o) = 1 := by
  rw [sortKey, queryGemini_provider]
  decide

theorem sortKey_queryPerplexity (ekt : Str → List Str) (o : CallOutcome) :
    sortKey (queryPerplexity ekt o) = 2 := by
  rw [sortKey, queryPerplexity_provider]
  decide

theorem sortKey_unconf_openai :
    sortKey (unconfiguredResult (str "openai") (str "ChatGPT")) = 0 := by decide

theorem sortKey_unconf_google :
    sortKey (unconfiguredResult (str "google") (str "Gemini")) = 1 := by decide

theorem sortKey_unconf_perplexity :
    sortKey (unconfiguredResult (str "perplexity") (str "Perplexity")) = 2 := by decide

theorem sortKey_xai : sortKey xaiPlaceholder = 3 := by decide

/-- The assembled-and-sorted comparison list, in closed form: always one
entry per provider, in the fixed provider order, with unavailable
placeholders for unconfigured providers. -/
theorem compareAcrossModels_eq (ekt : Str → List Str)
    (openaiKey googleKey perplexityKey : Bool)
    (oOpenai oGoogle oPerplexity : CallOutcome) :
    compareAcrossModels ekt openaiKey googleKey perplexityKey oOpenai oGoogle oPerplexity
      = [(if openaiKey then queryOpenAI ekt oOpenai
            else unconfiguredResult (str "openai") (str "ChatGPT")),
         (if googleKey then queryGemini ekt oGoogle
            else unconfiguredResult (str "google") (str "Gemini")),
         (if perplexityKey then queryPerplexity ekt oPerplexity
            else unconfiguredResult (str "perplexity") (str "Perplexity")),
         xaiPlaceholder] := by
  cases openaiKey <;> cases googleKey <;> cases perplexityKey <;>
    simp [compareAcrossModels, sortResults, insertByKey,
      sortKey_queryOpenAI, sortKey_queryGemini, sortKey_queryPerplexity,
      sortKey_unconf_openai, sortKey_unconf_google, sortKey_unconf_perplexity,
      sortKey_xai]

/-- Inversion for successful scrape responses: a payload is produced only on
the map-ok path, and its fields are the handler's constructions. -/
theorem scrapeAfterGate_data_inv {url : Str} {firecrawlKey : Bool}
    {mapOut : MapOutcome} {fetch : Str → FetchOutcome} {d : ScrapeData}
    (h : (scrapeAfterGate url firecrawlKey mapOut fetch).data = some d) :
    ∃ links?, mapOut = MapOutcome.ok links?
      ∧ d.url = formatUrl url
      ∧ d.pages = (match links? with
          | some ls => ls.take 10
          | none => [formatUrl url])
      ∧ d.content = joinPages (scrapeLoop d.pages fetch)
      ∧ d.pageCount = (scrapeLoop d.pages fetch).length := by
  cases firecrawlKey with
  | false => simp [scrapeAfterGate] at h
  | true =>
    cases mapOut with
    | httpFail status errMsg => simp [scrapeAfterGate] at h
    | ok links? =>
      refine ⟨links?, rfl, ?_⟩
      cases links? with
      | some ls =>
        have hd : d = ⟨formatUrl url, ls.take 10,
            joinPages (scrapeLoop (ls.take 10) fetch),
            (scrapeLoop (ls.take 10) fetch).length⟩ := by
          simpa [scrapeAfterGate] using h.symm
        subst hd
        simp
      | none =>
        have hd : d = ⟨formatUrl url, [formatUrl url],
            joinPages (scrapeLoop [formatUrl url] fetch),
            (scrapeLoop [formatUrl url] fetch).length⟩ := by
          simpa [scrapeAfterGate] using h.symm
        subst hd
        simp

/-- Inversion through the full handler (validation and gate included). -/
theorem seoScrape_data_inv {urlField userId : Option Str} {env : FlowgladEnv}
    {firecrawlKey : Bool} {mapOut : MapOutcome} {fetch : Str → FetchOutcome}
    {d : ScrapeData}
    (h : (seoScrape urlField userId env firecrawlKey mapOut fetch).data = some d) :
    ∃ url, urlField = some url
      ∧ (scrapeAfterGate url firecrawlKey mapOut fetch).data = some d := by
  cases urlField with
  | none => simp [seoScrape] at h
  | some url =>
    refine ⟨url, rfl, ?_⟩
    cases userId with
    | none => simpa [seoScrape] using h
    | some uid =>
      rw [seoScrape] at h
      by_cases hg : (checkApiRateLimit env uid (str "scrape-requests")).allowed
      · simpa [hg] using h
      · simp [hg] at h

/-! ### Claim theorems -/

/-- Claim C1 counterexample: in a series of 4 gated calls by the demo
identity, the 4th call is NOT denied — `checkApiRateLimit` keeps no state,
so it answers `allowed:true, remaining:3` every time, including the 4th
(here with the billing backend in an erroring state, which the demo path
never consults). -/
theorem c1_counterexample :
    (gateCallSeries FlowgladEnv.httpError DEMO_USER_ID (str "scrape-requests") 4).getLast?
      = some ⟨true, 3, none, true⟩ := by
  decide

/-- Claim C1 (amended): for the demo identity the quota gate never consults
the external billing backend (the result is the same for every backend
state) and advertises a fixed allowance of 3 as `remaining`, but it enforces
nothing: every call of every series is answered `allowed:true, remaining:3`,
so the 4th call is allowed exactly like the first. -/
theorem c1_amended_thm (env : FlowgladEnv) (slug : Str) (n : Nat) :
    gateCallSeries env DEMO_USER_ID slug n
      = List.replicate n ⟨true, 3, none, true⟩ := by
  have hdemo : checkApiRateLimit env DEMO_USER_ID slug = ⟨true, 3, none, true⟩ := by
    rw [checkApiRateLimit]
    simp [isDemoUser]
  rw [gateCallSeries]
  simp [hdemo, List.map_const']

/-- Claim C2 counterexample: when the model output for an analyze call fails
to parse, the handler returns `success:false` with HTTP 500 and no data at
all — the failure IS surfaced to the caller, and no `queries` array (empty
or otherwise) is synthesized. -/
theorem c2_counterexample :
    (analyzeHandleModelOutput (str "this is not JSON") (fun _ => none)).success = false
    ∧ (analyzeHandleModelOutput (str "this is not JSON") (fun _ => none)).status = 500
    ∧ (analyzeHandleModelOutput (str "this is not JSON") (fun _ => none)).data = none
    ∧ (analyzeHandleModelOutput (str "this is not JSON") (fun _ => none)).error
      = some (str "Failed to parse AI response") :=
  ⟨rfl, rfl, rfl, rfl⟩

/-- Claim C2 (amended): a parse failure in seo-analyze is surfaced as a
user-facing failure: the handler returns exactly
`success:false`, HTTP 500, no data, and the error text
"Failed to parse AI response"; no fallback queries are synthesized. -/
theorem c2_amended_thm (messageContent : Str)
    (jsonParse : Str → Option AnalysisData)
    (h : jsonParse (analyzeStripFences messageContent) = none) :
    analyzeHandleModelOutput messageContent jsonParse
      = ⟨false, 500, none, some (str "Failed to parse AI response")⟩ := by
  rw [analyzeHandleModelOutput, h]
  rfl

theorem c2_amended_witness :
    ((fun _ : Str => (none : Option AnalysisData))
        (analyzeStripFences (str "this is not JSON")) = none)
    ∧ analyzeHandleModelOutput (str "this is not JSON") (fun _ => none)
      = ⟨false, 500, none, some (str "Failed to parse AI response")⟩ :=
  ⟨rfl, c2_amended_thm (str "this is not JSON") (fun _ => none) rfl⟩

/-- Claim C3: for every generateQueryContent call, independently: if the
guideline-step model output fails JSON parsing, the operation substitutes
the deterministic synthetic guideline seeded with the original query (in the
title and as the sole primary keyword) and target word count 1500; and if
the content-step output fails JSON parsing, it uses the doctype-anchored
fragment of the raw text as the HTML when one exists (a suffix of the
stripped raw text starting case-insensitively with `<!DOCTYPE html>`), else
the raw text itself - in both cases a well-typed `QueryContentResult` is
still assembled. -/
theorem c3_theorem (query companyUrl guidelineRaw contentRaw : Str)
    (guidelineParse : Str → Option Guideline)
    (contentParse : Str → Option ContentPayload) :
    (guidelineParse (stripFences guidelineRaw) = none →
      (generateQueryContentCore query companyUrl guidelineRaw guidelineParse
          contentRaw contentParse).guideline = fallbackGuideline query
      ∧ (fallbackGuideline query).targetWordCount = 1500
      ∧ (fallbackGuideline query).primaryKeywords = [query]
      ∧ (fallbackGuideline query).title
          = str "Content Strategy for \"" ++ query ++ str "\"")
    ∧ (contentParse (stripFences contentRaw) = none →
      (generateQueryContentCore query companyUrl guidelineRaw guidelineParse
          contentRaw contentParse).content
        = cleanHtmlField (fallbackContent (stripFences contentRaw) query companyUrl)
      ∧ (∀ s, findDoctype (stripFences contentRaw) = some s →
          (fallbackContent (stripFences contentRaw) query companyUrl).html = s
          ∧ s <:+ stripFences contentRaw
          ∧ ciPrefixOf doctypePat s = true)
      ∧ (findDoctype (stripFences contentRaw) = none →
          (fallbackContent (stripFences contentRaw) query companyUrl).html
            = stripFences contentRaw)) := by
  constructor
  · intro hg
    refine ⟨?_, rfl, rfl, rfl⟩
    rw [generateQueryContentCore]
    simp only [hg]
    rfl
  · intro hc
    refine ⟨?_, ?_, ?_⟩
    · rw [generateQueryContentCore]
      simp only [hc]
      rfl
    · intro s hs
      obtain ⟨hsuf, hci⟩ := findDoctype_spec hs
      exact ⟨by rw [fallbackContent]; simp [hs], hsuf, hci⟩
    · intro hnone
      rw [fallbackContent]
      simp [hnone]

theorem c3_witness :
    ((generateQueryContentCore (str "best crm software") (str "acme.com")
          (str "mangled") (fun _ => none) (str "oops") (fun _ => none)).guideline
        = fallbackGuideline (str "best crm software")
      ∧ (fallbackGuideline (str "best crm software")).targetWordCount = 1500
      ∧ (fallbackGuideline (str "best crm software")).primaryKeywords
        = [str "best crm software"]
      ∧ (fallbackGuideline (str "best crm software")).title
        = str "Content Strategy for \"" ++ str "best crm software" ++ str "\"")
    ∧ ((generateQueryContentCore (str "best crm software") (str "acme.com")
          (str "mangled") (fun _ => none) (str "oops") (fun _ => none)).content
        = cleanHtmlField (fallbackContent (stripFences (str "oops"))
            (str "best crm software") (str "acme.com"))
      ∧ (∀ s, findDoctype (stripFences (str "oops")) = some s →
          (fallbackContent (stripFences (str "oops")) (str "best crm software")
              (str "acme.com")).html = s
          ∧ s <:+ stripFences (str "oops")
          ∧ ciPrefixOf doctypePat s = true)
      ∧ (findDoctype (stripFences (str "oops")) = none →
          (fallbackContent (stripFences (str "oops")) (str "best crm software")
              (str "acme.com")).html = stripFences (str "oops"))) :=
  ⟨(c3_theorem (str "best crm software") (str "acme.com") (str "mangled")
      (str "oops") (fun _ => none) (fun _ => none)).1 rfl,
    (c3_theorem (str "best crm software") (str "acme.com") (str "mangled")
      (str "oops") (fun _ => none) (fun _ => none)).2 rfl⟩

/-- Claim C4: with queries `[q1..q5]` first, `search q3` failing and the
other four succeeding, the competitor loop collects exactly the four
results in order (no placeholder for the failure), and the content loop
invokes `generateQueryContent` exactly once per collected entry, in the
same order. -/
theorem c4_theorem (q1 q2 q3 q4 q5 : Str) (rest : List Str)
    (r1 r2 r4 r5 : SearchResultR)
    (search : Str → Option SearchResultR)
    (gen : SearchResultR → Option QueryContentResult)
    (h1 : search q1 = some r1) (h2 : search q2 = some r2)
    (h3 : search q3 = none)
    (h4 : search q4 = some r4) (h5 : search q5 = some r5) :
    competitorLoop (q1 :: q2 :: q3 :: q4 :: q5 :: rest) search = [r1, r2, r4, r5]
    ∧ (competitorLoop (q1 :: q2 :: q3 :: q4 :: q5 :: rest) search).length = 4
    ∧ (contentLoop (competitorLoop (q1 :: q2 :: q3 :: q4 :: q5 :: rest) search) gen).2
      = [r1.query, r2.query, r4.query, r5.query]
    ∧ (contentLoop (competitorLoop (q1 :: q2 :: q3 :: q4 :: q5 :: rest) search) gen).1
      = [r1, r2, r4, r5].filterMap gen := by
  have hcomp : competitorLoop (q1 :: q2 :: q3 :: q4 :: q5 :: rest) search
      = [r1, r2, r4, r5] := by
    simp [competitorLoop, h1, h2, h3, h4, h5]
  refine ⟨hcomp, by rw [hcomp]; rfl, ?_, ?_⟩
  · rw [hcomp, contentLoop_calls]
    rfl
  · rw [hcomp, contentLoop_outputs]

theorem c4_witness :
    ((fun q => if q = str "q1" then some (⟨str "q1", str "a1", []⟩ : SearchResultR)
        else if q = str "q2" then some ⟨str "q2", str "a2", []⟩
        else if q = str "q3" then none
        else if q = str "q4" then some ⟨str "q4", str "a4", []⟩
        else if q = str "q5" then some ⟨str "q5", str "a5", []⟩
        else none) (str "q1") = some (⟨str "q1", str "a1", []⟩ : SearchResultR))
    ∧ (competitorLoop [str "q1", str "q2", str "q3", str "q4", str "q5"]
        (fun q => if q = str "q1" then some ⟨str "q1", str "a1", []⟩
          else if q = str "q2" then some ⟨str "q2", str "a2", []⟩
          else if q = str "q3" then none
          else if q = str "q4" then some ⟨str "q4", str "a4", []⟩
          else if q = str "q5" then some ⟨str "q5", str "a5", []⟩
          else none)
        = [⟨str "q1", str "a1", []⟩, ⟨str "q2", str "a2", []⟩,
            ⟨str "q4", str "a4", []⟩, ⟨str "q5", str "a5", []⟩]
      ∧ (competitorLoop [str "q1", str "q2", str "q3", str "q4", str "q5"]
          (fun q => if q = str "q1" then some ⟨str "q1", str "a1", []⟩
            else if q = str "q2" then some ⟨str "q2", str "a2", []⟩
            else if q = str "q3" then none
            else if q = str "q4" then some ⟨str "q4", str "a4", []⟩
            else if q = str "q5" then some ⟨str "q5", str "a5", []⟩
            else none)).length = 4
      ∧ (contentLoop (competitorLoop [str "q1", str "q2", str "q3", str "q4", str "q5"]
          (fun q => if q = str "q1" then some ⟨str "q1", str "a1", []⟩
            else if q = str "q2" then some ⟨str "q2", str "a2", []⟩
            else if q = str "q3" then none
            else if q = str "q4" then some ⟨str "q4", str "a4", []⟩
            else if q = str "q5" then some ⟨str "q5", str "a5", []⟩
            else none)) (fun _ => none)).2
        = [(⟨str "q1", str "a1", []⟩ : SearchResultR).query,
            (⟨str "q2", str "a2", []⟩ : SearchResultR).query,
            (⟨str "q4", str "a4", []⟩ : SearchResultR).query,
            (⟨str "q5", str "a5", []⟩ : SearchResultR).query]
      ∧ (contentLoop (competitorLoop [str "q1", str "q2", str "q3", str "q4", str "q5"]
          (fun q => if q = str "q1" then some ⟨str "q1", str "a1", []⟩
            else if q = str "q2" then some ⟨str "q2", str "a2", []⟩
            else if q = str "q3" then none
            else if q = str "q4" then some ⟨str "q4", str "a4", []⟩
            else if q = str "q5" then some ⟨str "q5", str "a5", []⟩
            else none)) (fun _ => none)).1
        = ([⟨str "q1", str "a1", []⟩, ⟨str "q2", str "a2", []⟩,
            ⟨str "q4", str "a4", []⟩, ⟨str "q5", str "a5", []⟩]
              : List SearchResultR).filterMap (fun _ => none)) :=
  ⟨by decide,
    c4_theorem (str "q1") (str "q2") (str "q3") (str "q4") (str "q5") []
      ⟨str "q1", str "a1", []⟩ ⟨str "q2", str "a2", []⟩
      ⟨str "q4", str "a4", []⟩ ⟨str "q5", str "a5", []⟩
      _ (fun _ => none)
      (by decide) (by decide) (by decide) (by decide) (by decide)⟩

/-- Claim C5 counterexample: a fallback-synthesized result carries no marker
at all — it is bit-for-bit identical to the result produced from a genuine
parse whose value happens to equal the synthetic default, so nothing in the
returned object distinguishes fallback synthesis from genuine model
output. -/
theorem c5_counterexample :
    generateQueryContentCore (str "best crm software") (str "acme.com")
        (str "mangled output")
        (fun _ => some (fallbackGuideline (str "best crm software")))
        (str "also mangled") (fun _ => none)
      = generateQueryContentCore (str "best crm software") (str "acme.com")
        (str "mangled output") (fun _ => none)
        (str "also mangled") (fun _ => none) := rfl

/-- Claim C5 (amended): degraded results carry no `degraded:true`-style
marker or any other recorded indication: the result record has only
`query`, `guideline` and `content` fields, and whenever a genuine parse
yields exactly the synthetic default objects, the assembled result is
identical to the fallback-synthesized one, for the guideline step and the
content step alike.  Degradation is only logged, never recorded in the
returned object. -/
theorem c5_amended_thm (query companyUrl guidelineRaw contentRaw : Str)
    (genuineGuidelineParse degradedGuidelineParse : Str → Option Guideline)
    (genuineContentParse degradedContentParse : Str → Option ContentPayload)
    (hgg : genuineGuidelineParse (stripFences guidelineRaw)
      = some (fallbackGuideline query))
    (hdg : degradedGuidelineParse (stripFences guidelineRaw) = none)
    (hgc : genuineContentParse (stripFences contentRaw)
      = some (fallbackContent (stripFences contentRaw) query companyUrl))
    (hdc : degradedContentParse (stripFences contentRaw) = none) :
    generateQueryContentCore query companyUrl guidelineRaw genuineGuidelineParse
        contentRaw genuineContentParse
      = generateQueryContentCore query companyUrl guidelineRaw degradedGuidelineParse
        contentRaw degradedContentParse := by
  rw [generateQueryContentCore, generateQueryContentCore]
  simp only [hgg, hdg, hgc, hdc]
  rfl

theorem c5_amended_witness :
    ((fun _ : Str => some (fallbackGuideline (str "q")))
        (stripFences (str "g-raw")) = some (fallbackGuideline (str "q")))
    ∧ ((fun _ : Str => (none : Option Guideline))
        (stripFences (str "g-raw")) = none)
    ∧ ((fun _ : Str => some (fallbackContent (stripFences (str "c-raw"))
          (str "q") (str "u")))
        (stripFences (str "c-raw"))
        = some (fallbackContent (stripFences (str "c-raw")) (str "q") (str "u")))
    ∧ ((fun _ : Str => (none : Option ContentPayload))
        (stripFences (str "c-raw")) = none)
    ∧ generateQueryContentCore (str "q") (str "u") (str "g-raw")
        (fun _ => some (fallbackGuideline (str "q")))
        (str "c-raw")
        (fun _ => some (fallbackContent (stripFences (str "c-raw"))
          (str "q") (str "u")))
      = generateQueryContentCore (str "q") (str "u") (str "g-raw")
        (fun _ => none) (str "c-raw") (fun _ => none) :=
  ⟨rfl, rfl, rfl, rfl,
    c5_amended_thm (str "q") (str "u") (str "g-raw") (str "c-raw")
      (fun _ => some (fallbackGuideline (str "q"))) (fun _ => none)
      (fun _ => some (fallbackContent (stripFences (str "c-raw"))
        (str "q") (str "u"))) (fun _ => none)
      rfl rfl rfl rfl⟩

/-- Claim C6: the comparison result is the closed-form four-entry list in the
fixed provider order `[openai, google, perplexity, xai]` for every
combination of configured keys and settled outcomes; the provider ordering
is identical across two runs with the same configured providers regardless
of outcomes; and unconfigured or disabled providers are included, marked
unavailable. -/
theorem c6_theorem (ekt ektSecond : Str → List Str)
    (openaiKey googleKey perplexityKey : Bool)
    (oO oG oP oOSecond oGSecond oPSecond : CallOutcome) :
    compareAcrossModels ekt openaiKey googleKey perplexityKey oO oG oP
      = [(if openaiKey then queryOpenAI ekt oO
            else unconfiguredResult (str "openai") (str "ChatGPT")),
         (if googleKey then queryGemini ekt oG
            else unconfiguredResult (str "google") (str "Gemini")),
         (if perplexityKey then queryPerplexity ekt oP
            else unconfiguredResult (str "perplexity") (str "Perplexity")),
         xaiPlaceholder]
    ∧ (compareAcrossModels ekt openaiKey googleKey perplexityKey oO oG oP).map
        LLMResult.provider
      = [str "openai", str "google", str "perplexity", str "xai"]
    ∧ (compareAcrossModels ekt openaiKey googleKey perplexityKey oO oG oP).map
        LLMResult.provider
      = (compareAcrossModels ektSecond openaiKey googleKey perplexityKey
          oOSecond oGSecond oPSecond).map LLMResult.provider
    ∧ (unconfiguredResult (str "openai") (str "ChatGPT")).available = false
    ∧ (unconfiguredResult (str "google") (str "Gemini")).available = false
    ∧ (unconfiguredResult (str "perplexity") (str "Perplexity")).available = false
    ∧ xaiPlaceholder.available = false := by
  have hmap : ∀ (e : Str → List Str) (a b c : CallOutcome),
      (compareAcrossModels e openaiKey googleKey perplexityKey a b c).map
        LLMResult.provider
        = [str "openai", str "google", str "perplexity", str "xai"] := by
    intro e a b c
    rw [compareAcrossModels_eq]
    cases openaiKey <;> cases googleKey <;> cases perplexityKey <;>
      simp [queryOpenAI_provider, queryGemini_provider, queryPerplexity_provider,
        unconfiguredResult, xaiPlaceholder]
  exact ⟨compareAcrossModels_eq ekt openaiKey googleKey perplexityKey oO oG oP,
    hmap ekt oO oG oP,
    (hmap ekt oO oG oP).trans (hmap ektSecond oOSecond oGSecond oPSecond).symm,
    rfl, rfl, rfl, rfl⟩

/-- Claim C7 counterexample: for input url `example.com/` the url carried in
the successful scrape response is `https://example.com/` — the scheme is
prepended but the trailing slash is NOT stripped (its last character is
still `/`). -/
theorem c7_counterexample :
    ((scrapeAfterGate (str "example.com/") true (MapOutcome.ok none)
        (fun _ => FetchOutcome.fail)).data.map fun d => d.url)
      = some (str "https://example.com/")
    ∧ (str "https://example.com/").getLast? = some '/' := by
  constructor
  · decide
  · decide

/-- Claim C7 (amended): the url carried in the scrape response's data is the
trimmed input with `https://` prepended when no `http(s)://` scheme is
present; a trailing slash is preserved, not stripped. -/
theorem c7_amended_thm (url : Str) (mapLinks : Option (List Str))
    (fetch : Str → FetchOutcome)
    (htrim : jsTrim url = url) (hslash : url.getLast? = some '/') :
    ((scrapeAfterGate url true (MapOutcome.ok mapLinks) fetch).data.map
        fun d => d.url) = some (formatUrl url)
    ∧ (httpScheme.isPrefixOf (formatUrl url) = true
        ∨ httpsScheme.isPrefixOf (formatUrl url) = true)
    ∧ (formatUrl url).getLast? = some '/' := by
  refine ⟨?_, ?_, ?_⟩
  · cases mapLinks <;> simp [scrapeAfterGate]
  · simp only [formatUrl, htrim]
    by_cases hp : (httpScheme.isPrefixOf url || httpsScheme.isPrefixOf url) = true
    · rw [if_pos hp]
      simp only [Bool.or_eq_true] at hp
      exact hp
    · rw [if_neg hp]
      right
      exact isPrefixOf_append_self _ _
  · simp only [formatUrl, htrim]
    by_cases hp : (httpScheme.isPrefixOf url || httpsScheme.isPrefixOf url) = true
    · rw [if_pos hp]
      exact hslash
    · rw [if_neg hp]
      have hne : url ≠ [] := by
        intro h0
        rw [h0] at hslash
        simp at hslash
      rw [List.getLast?_append_of_ne_nil _ hne]
      exact hslash

theorem c7_amended_witness :
    jsTrim (str "example.com/") = str "example.com/"
    ∧ (str "example.com/").getLast? = some '/'
    ∧ (((scrapeAfterGate (str "example.com/") true (MapOutcome.ok none)
          (fun _ => FetchOutcome.fail)).data.map fun d => d.url)
        = some (formatUrl (str "example.com/"))
      ∧ (httpScheme.isPrefixOf (formatUrl (str "example.com/")) = true
          ∨ httpsScheme.isPrefixOf (formatUrl (str "example.com/")) = true)
      ∧ (formatUrl (str "example.com/")).getLast? = some '/') :=
  ⟨by decide, by decide,
    c7_amended_thm (str "example.com/") none (fun _ => FetchOutcome.fail)
      (by decide) (by decide)⟩

/-- Claim C8: every successful scrape response satisfies: `pageCount` equals
the number of the (at most 5) attempted pages whose fetch yielded non-empty
extracted text; `pages.length ≤ 20`; and `content` is the `\n\n`-joined
concatenation of the per-page texts, each prefixed with the
`--- Page: <url> ---` delimiter, for at most 5 pages. -/
theorem c8_theorem (urlField userId : Option Str) (env : FlowgladEnv)
    (firecrawlKey : Bool) (mapOut : MapOutcome) (fetch : Str → FetchOutcome)
    (d : ScrapeData)
    (h : (seoScrape urlField userId env firecrawlKey mapOut fetch).data = some d) :
    d.pageCount = ((d.pages.take 5).filter fun u =>
        match fetch u with
        | FetchOutcome.markdown md => !md.isEmpty
        | FetchOutcome.fail => false).length
    ∧ d.pages.length ≤ 20
    ∧ d.content = joinPages ((d.pages.take 5).filterMap (scrapeEntry fetch))
    ∧ ((d.pages.take 5).filterMap (scrapeEntry fetch)).length ≤ 5 := by
  obtain ⟨url, hu, hafter⟩ := seoScrape_data_inv h
  obtain ⟨links?, hmap, hurl, hpages, hcontent, hcount⟩ :=
    scrapeAfterGate_data_inv hafter
  have hfun : (fun u => (scrapeEntry fetch u).isSome)
      = (fun u =>
          match fetch u with
          | FetchOutcome.markdown md => !md.isEmpty
          | FetchOutcome.fail => false) :=
    funext (scrapeEntry_isSome fetch)
  refine ⟨?_, ?_, ?_, ?_⟩
  · rw [hcount, scrapeLoop_eq_filterMap, length_filterMap_eq_length_filter, hfun]
  · rw [hpages]
    cases links? with
    | some ls =>
      show (ls.take 10).length ≤ 20
      have := List.length_take_le 10 ls
      omega
    | none =>
      show ([formatUrl url] : List Str).length ≤ 20
      simp
  · rw [hcontent, scrapeLoop_eq_filterMap]
  · exact le_trans (List.length_filterMap_le _ _) (List.length_take_le 5 _)

theorem c8_witness :
    ((seoScrape (some (str "x.io")) none FlowgladEnv.noApiKey true
        (MapOutcome.ok none) (fun _ => FetchOutcome.fail)).data
      = some ⟨formatUrl (str "x.io"), [formatUrl (str "x.io")],
          joinPages (scrapeLoop [formatUrl (str "x.io")] (fun _ => FetchOutcome.fail)),
          (scrapeLoop [formatUrl (str "x.io")] (fun _ => FetchOutcome.fail)).length⟩)
    ∧ (⟨formatUrl (str "x.io"), [formatUrl (str "x.io")],
          joinPages (scrapeLoop [formatUrl (str "x.io")] (fun _ => FetchOutcome.fail)),
          (scrapeLoop [formatUrl (str "x.io")] (fun _ => FetchOutcome.fail)).length⟩
            : ScrapeData).pages.length ≤ 20 :=
  ⟨rfl,
    (c8_theorem (some (str "x.io")) none FlowgladEnv.noApiKey true
      (MapOutcome.ok none) (fun _ => FetchOutcome.fail) _ rfl).2.1⟩

/-- Claim C9: feeding the fence-stripping step a code-fenced JSON payload
yields the same string as feeding the unfenced payload (hence the same
parsed object), stripping is idempotent on the result, the seo-analyze
variant agrees, and the common value is exactly the trimmed payload —
lossless for well-formed (backtick-free) payloads. -/
theorem c9_theorem (j : Str) (h : btick ∉ j) :
    stripFences (fencedWrap j) = stripFences j
    ∧ stripFences (stripFences (fencedWrap j)) = stripFences (fencedWrap j)
    ∧ analyzeStripFences (fencedWrap j) = analyzeStripFences j
    ∧ stripFences (fencedWrap j) = jsTrim j := by
  have hA : stripFences (fencedWrap j) = jsTrim j := stripFences_fencedWrap h
  have hB : stripFences j = jsTrim j := stripFences_of_no_btick h
  have hC : stripFences (jsTrim j) = jsTrim j := by
    rw [stripFences_of_no_btick (no_btick_jsTrim h), jsTrim_idem]
  refine ⟨hA.trans hB.symm, ?_, ?_, hA⟩
  · rw [hA, hC]
  · rw [analyzeStripFences, analyzeStripFences, jsTrim_fencedWrap, hA]
    exact hC.symm

theorem c9_witness :
    btick ∉ str "\x7b\"title\":\"x\"\x7d"
    ∧ (stripFences (fencedWrap (str "\x7b\"title\":\"x\"\x7d"))
        = stripFences (str "\x7b\"title\":\"x\"\x7d")
      ∧ stripFences (stripFences (fencedWrap (str "\x7b\"title\":\"x\"\x7d")))
        = stripFences (fencedWrap (str "\x7b\"title\":\"x\"\x7d"))
      ∧ analyzeStripFences (fencedWrap (str "\x7b\"title\":\"x\"\x7d"))
        = analyzeStripFences (str "\x7b\"title\":\"x\"\x7d")
      ∧ stripFences (fencedWrap (str "\x7b\"title\":\"x\"\x7d"))
        = jsTrim (str "\x7b\"title\":\"x\"\x7d")) :=
  ⟨by decide, c9_theorem (str "\x7b\"title\":\"x\"\x7d") (by decide)⟩

/-- Claim C10: whenever the map response carries a `links` list, `pages` is
that list truncated to its first 10 entries — including the empty list, in
which case the call still succeeds with `pages = []` and `pageCount = 0` —
and only when `links` is absent does `pages` fall back to the one-element
list holding the normalized input URL. -/
theorem c10_theorem (url : Str) (fetch : Str → FetchOutcome) :
    (∀ ls : List Str,
      ((scrapeAfterGate url true (MapOutcome.ok (some ls)) fetch).data.map
          fun d => d.pages) = some (ls.take 10))
    ∧ ((scrapeAfterGate url true (MapOutcome.ok (some [])) fetch).success = true
      ∧ ((scrapeAfterGate url true (MapOutcome.ok (some [])) fetch).data.map
          fun d => d.pages) = some []
      ∧ ((scrapeAfterGate url true (MapOutcome.ok (some [])) fetch).data.map
          fun d => d.pageCount) = some 0)
    ∧ ((scrapeAfterGate url true (MapOutcome.ok none) fetch).data.map
        fun d => d.pages) = some [formatUrl url] := by
  refine ⟨fun ls => by simp [scrapeAfterGate], ⟨?_, ?_, ?_⟩, by simp [scrapeAfterGate]⟩
  · simp [scrapeAfterGate]
  · simp [scrapeAfterGate]
  · simp [scrapeAfterGate, scrapeLoop]

end SearchSentinel
